import Mathlib

/-!
# Composition-based polymorphism in Go: the two demonstration programs

The repository holds two near-duplicate programs,
`src/go-example/main.go` and `src/examples/go-example/main.go`.  Both
declare the interface `iAnimal`, the struct `animal`, the struct `dog`
embedding `animal`, and the function `runPolymorphicAnimalFuncs`; the
declarations are textually the same in both files, so they are embedded
once.  `dog.peeOnFireHydrant` exists only in the second file.  The two
`main` functions (and `properWay`) differ and are embedded separately.

Every method has a pointer receiver and values are built with `&T{...}`,
so the embedding keeps a heap of allocated cells next to the text written
to standard output, and threads both through every call.
-/

namespace OopInGo

/-! ## Data model -/

/-- The struct `animal`: one field, `name`. -/
structure animal where
  name : String
deriving DecidableEq

/-- The struct `dog`: the anonymous (embedded) field `animal`, held by value,
and `dogCollarBrand`. -/
structure dog where
  animal : animal
  dogCollarBrand : String
deriving DecidableEq

/-- A heap cell.  The programs allocate nothing but animals and dogs. -/
inductive Cell where
  | animal (v : animal)
  | dog (v : dog)
deriving DecidableEq

/-- A value of type `*animal`: nil, the address of an allocated `animal`, or
the address of the `animal` field embedded in an allocated `dog`. -/
inductive AnimalPtr where
  | nil
  | cell (addr : Nat)
  | embedded (addr : Nat)
deriving DecidableEq

/-- A value of type `*dog`: nil or the address of an allocated `dog`. -/
inductive DogPtr where
  | nil
  | cell (addr : Nat)
deriving DecidableEq

/-- A value of interface type `iAnimal`: the nil interface, or a dynamic type
(`*animal` or `*dog`, the two types of the program whose method sets
contain `printName` and `makeCoolAnimalSound`) with a pointer of that type. -/
inductive iAnimal where
  | nil
  | animal (p : AnimalPtr)
  | dog (p : DogPtr)
deriving DecidableEq

/-- Run-time panics.  `nilDereference` is Go's nil pointer dereference.
`invalidAddress` cannot arise in Go, whose pointers are nil or valid; it is
the outcome of following an address that names no cell of the right kind,
which the embedding can express because addresses are plain numbers. -/
inductive Panic where
  | nilDereference
  | invalidAddress
deriving DecidableEq

/-- The state threaded through the program: the text written to standard
output so far and the allocated cells (address `n` is the `n`-th cell). -/
structure State where
  stdout : String
  heap : List Cell
deriving DecidableEq

/-- A Go computation: from a state to a result (a value or a panic) and the
state it leaves.  Text written before a panic stays written. -/
def Go (α : Type) : Type := State → Except Panic α × State

/-- Sequencing of Go statements: a panic ends the computation. -/
def Go.bind {α β : Type} (m : Go α) (f : α → Go β) : Go β := fun s =>
  match m s with
  | (Except.ok a, s1) => f a s1
  | (Except.error e, s1) => (Except.error e, s1)

instance : Monad Go where
  pure a := fun s => (Except.ok a, s)
  bind := Go.bind

/-- A run-time panic. -/
def Go.panic {α : Type} (e : Panic) : Go α := fun s => (Except.error e, s)

/-! ## Primitives of the language and of package `fmt` -/

/-- The call `fmt.Println(a...)` on string operands: the operands separated by
single spaces, then a newline, appended to standard output.  The returned
byte count and error are discarded at every call site. -/
def Println (a : List String) : Go Unit := fun s =>
  (Except.ok (), { s with stdout := s.stdout ++ " ".intercalate a ++ "\n" })

/-- The composite literal `&animal{...}`: a fresh cell and its address. -/
def newAnimal (v : animal) : Go AnimalPtr := fun s =>
  (Except.ok (AnimalPtr.cell s.heap.length), { s with heap := s.heap ++ [Cell.animal v] })

/-- The composite literal `&dog{...}`: a fresh cell and its address. -/
def newDog (v : dog) : Go DogPtr := fun s =>
  (Except.ok (DogPtr.cell s.heap.length), { s with heap := s.heap ++ [Cell.dog v] })

/-- The value a `*dog` points at, in a given state. -/
def DogPtr.deref (p : DogPtr) (s : State) : Except Panic dog :=
  match p with
  | DogPtr.nil => Except.error Panic.nilDereference
  | DogPtr.cell n =>
    match s.heap[n]? with
    | some (Cell.dog v) => Except.ok v
    | _ => Except.error Panic.invalidAddress

/-- The value a `*animal` points at, in a given state. -/
def AnimalPtr.deref (p : AnimalPtr) (s : State) : Except Panic animal :=
  match p with
  | AnimalPtr.nil => Except.error Panic.nilDereference
  | AnimalPtr.cell n =>
    match s.heap[n]? with
    | some (Cell.animal v) => Except.ok v
    | _ => Except.error Panic.invalidAddress
  | AnimalPtr.embedded n =>
    match s.heap[n]? with
    | some (Cell.dog v) => Except.ok v.animal
    | _ => Except.error Panic.invalidAddress

/-- Reading through a `*dog` (`*d`, or a field selector `d.f`). -/
def DogPtr.load (p : DogPtr) : Go dog := fun s => (p.deref s, s)

/-- Reading through a `*animal` (`a.name`). -/
def AnimalPtr.load (p : AnimalPtr) : Go animal := fun s => (p.deref s, s)

/-- The expression `&d.animal` for `d : *dog`, the receiver of a method
promoted from the embedded field.  It panics when `d` is nil. -/
def DogPtr.animal (p : DogPtr) : Go AnimalPtr :=
  match p with
  | DogPtr.nil => Go.panic Panic.nilDereference
  | DogPtr.cell n => pure (AnimalPtr.embedded n)

/-! ## The methods and functions of the programs -/

/-- `func (a *animal) printName() { fmt.Println(a.name) }` -/
def animal.printName (a : AnimalPtr) : Go Unit := do
  let v ← a.load
  Println [v.name]

/-- `func (a *animal) makeCoolAnimalSound()`: prints the generic message.
The receiver is not read. -/
def animal.makeCoolAnimalSound (_a : AnimalPtr) : Go Unit :=
  Println ["I do not know what type of animal I am. :("]

/-- `func (d *dog) makeCoolAnimalSound() { fmt.Println("Woof!") }`.  The
receiver is not read. -/
def dog.makeCoolAnimalSound (_d : DogPtr) : Go Unit :=
  Println ["Woof!"]

/-- `func (d *dog) peeOnFireHydrant()` of `src/examples/go-example/main.go`:
`fmt.Println(d.name, "marks his territory!")`, where `d.name` is the
promoted field `d.animal.name`. -/
def dog.peeOnFireHydrant (d : DogPtr) : Go Unit := do
  let v ← d.load
  Println [v.animal.name, "marks his territory!"]

/-- The method `printName` in the method set of `*dog`: promoted from the
embedded `animal`, so the call `d.printName()` is `(&d.animal).printName()`. -/
def dog.printName (d : DogPtr) : Go Unit := do
  let a ← d.animal
  animal.printName a

/-- The call `x.printName()` on `x : iAnimal`: dispatch on the dynamic type. -/
def iAnimal.printName (x : iAnimal) : Go Unit :=
  match x with
  | iAnimal.nil => Go.panic Panic.nilDereference
  | iAnimal.animal p => animal.printName p
  | iAnimal.dog p => dog.printName p

/-- The call `x.makeCoolAnimalSound()` on `x : iAnimal`: dispatch on the
dynamic type; `*dog` declares the method itself, which shadows the one
promoted from `animal`. -/
def iAnimal.makeCoolAnimalSound (x : iAnimal) : Go Unit :=
  match x with
  | iAnimal.nil => Go.panic Panic.nilDereference
  | iAnimal.animal p => animal.makeCoolAnimalSound p
  | iAnimal.dog p => dog.makeCoolAnimalSound p

/-- `func runPolymorphicAnimalFuncs(polymorphicAnimal iAnimal)`, the same in
both files. -/
def runPolymorphicAnimalFuncs (polymorphicAnimal : iAnimal) : Go Unit := do
  polymorphicAnimal.printName
  polymorphicAnimal.makeCoolAnimalSound

/-- `func properWay()` of `src/go-example/main.go`. -/
def properWay : Go Unit := do
  Println ["\n***Proper way***"]
  let unknownAnimal ← newAnimal { name := "Bob the unknown" }
  runPolymorphicAnimalFuncs (iAnimal.animal unknownAnimal)
  let polymorphicDog ← newDog { animal := { name := "Cozmo the dog" }, dogCollarBrand := "Barky" }
  runPolymorphicAnimalFuncs (iAnimal.dog polymorphicDog)
  Println [(← polymorphicDog.load).dogCollarBrand]

/-- `func main()` of `src/go-example/main.go`. -/
def main : Go Unit := do
  let unknownAnimal ← newAnimal { name := "Bob the unknown" }
  animal.printName unknownAnimal
  animal.makeCoolAnimalSound unknownAnimal
  -- var polymorphicAnimal iAnimal (nil), assigned before its first use
  let polymorphicAnimal : iAnimal := iAnimal.animal unknownAnimal
  polymorphicAnimal.printName
  polymorphicAnimal.makeCoolAnimalSound
  let polymorphicAnimal : iAnimal := iAnimal.dog
    (← newDog { animal := { name := "Cozmo the dog" }, dogCollarBrand := "Barky" })
  polymorphicAnimal.printName
  polymorphicAnimal.makeCoolAnimalSound
  properWay

namespace Examples

/-- `func main()` of `src/examples/go-example/main.go`. -/
def main : Go Unit := do
  let unknownAnimal ← newAnimal { name := "Bob the unknown" }
  let cozmo ← newDog { animal := { name := "Cozmo the dog" }, dogCollarBrand := "Barky" }
  runPolymorphicAnimalFuncs (iAnimal.animal unknownAnimal)
  runPolymorphicAnimalFuncs (iAnimal.dog cozmo)
  Println []
  Println [(← unknownAnimal.load).name]
  Println [(← cozmo.load).dogCollarBrand]
  dog.peeOnFireHydrant cozmo

end Examples

/-- The state a program starts in: nothing written, nothing allocated. -/
def State.initial : State := { stdout := "", heap := [] }

/-- A state holding the two values both programs build: Bob at address 0,
Cozmo at address 1, nothing written. -/
def State.bobAndCozmo : State :=
  { stdout := "",
    heap := [Cell.animal { name := "Bob the unknown" },
             Cell.dog { animal := { name := "Cozmo the dog" }, dogCollarBrand := "Barky" }] }

/-- A state holding Bob alone, at address 0: the heap of `main` of
`src/go-example/main.go` at its first calls, before any dog is built. -/
def State.bobAlone : State :=
  { stdout := "", heap := [Cell.animal { name := "Bob the unknown" }] }

/-- A state holding Cozmo with another tag, at address 0. -/
def State.spikyCozmo : State :=
  { stdout := "",
    heap := [Cell.dog { animal := { name := "Cozmo the dog" }, dogCollarBrand := "Spiky" }] }

/-- The state after `&animal{""}` in the initial state. -/
def State.nameless : State := { stdout := "", heap := [Cell.animal { name := "" }] }

/-! ## Vocabulary of the statements -/

/-- The message of `animal.makeCoolAnimalSound`. -/
abbrev genericMessage : String := "I do not know what type of animal I am. :("

/-- The state `s` after `text` has been written to standard output. -/
def State.write (s : State) (text : String) : State :=
  { s with stdout := s.stdout ++ text }

/-- The text made of the given lines, each one ended by a newline. -/
def unlines : List String → String
  | [] => ""
  | l :: ls => l ++ "\n" ++ unlines ls

/-- The text `text` contains `msg` as a run of consecutive characters. -/
def Mentions (text msg : String) : Prop := msg.data <:+: text.data

instance (text msg : String) : Decidable (Mentions text msg) := by
  unfold Mentions; infer_instance

/-- The computation `m` leaves every allocated value as it found it: the heap
is the same after it, and so is what every pointer points at. -/
def LeavesValuesUnchanged {α : Type} (m : Go α) : Prop :=
  ∀ s : State, (m s).2.heap = s.heap
    ∧ (∀ q : AnimalPtr, q.deref (m s).2 = q.deref s)
    ∧ (∀ q : DogPtr, q.deref (m s).2 = q.deref s)

/-! ## Evaluation lemmas -/

@[simp] theorem Go.bind_apply {α β : Type} (m : Go α) (f : α → Go β) (s : State) :
    (m >>= f) s = Go.bind m f s := rfl

@[simp] theorem Go.pure_apply {α : Type} (a : α) (s : State) :
    (pure a : Go α) s = (Except.ok a, s) := rfl

theorem Println_apply (a : List String) (s : State) :
    Println a s = (Except.ok (), s.write (" ".intercalate a ++ "\n")) := by
  simp [Println, State.write, String.append_assoc]

@[simp] theorem State.write_heap (s : State) (text : String) :
    (s.write text).heap = s.heap := rfl

@[simp] theorem State.write_stdout (s : State) (text : String) :
    (s.write text).stdout = s.stdout ++ text := rfl

theorem State.write_write (s : State) (t u : String) :
    (s.write t).write u = s.write (t ++ u) := by
  simp [State.write, String.append_assoc]

@[simp] theorem animalPtr_deref_write (p : AnimalPtr) (s : State) (text : String) :
    p.deref (s.write text) = p.deref s := rfl

@[simp] theorem dogPtr_deref_write (p : DogPtr) (s : State) (text : String) :
    p.deref (s.write text) = p.deref s := rfl

theorem unlines_singleton (l : String) : unlines [l] = l ++ "\n" := by
  simp [unlines]

theorem Println_single (l : String) (s : State) :
    Println [l] s = (Except.ok (), s.write (unlines [l])) := by
  simp [Println_apply, unlines_singleton, String.intercalate, String.intercalate.go]

theorem unlines_append (ks ls : List String) :
    unlines (ks ++ ls) = unlines ks ++ unlines ls := by
  induction ks with
  | nil => simp [unlines]
  | cons k ks ih => simp [unlines, ih, String.append_assoc]

/-- The address of the embedded animal of a valid dog is a valid `*animal`,
pointing at the embedded value. -/
theorem dogPtr_animal_of_deref (p : DogPtr) (s : State) (d : dog)
    (h : p.deref s = Except.ok d) :
    ∃ a : AnimalPtr, p.animal s = (Except.ok a, s) ∧ a.deref s = Except.ok d.animal := by
  cases p with
  | nil => simp [DogPtr.deref] at h
  | cell n =>
    refine ⟨AnimalPtr.embedded n, rfl, ?_⟩
    simp only [DogPtr.deref] at h
    simp only [AnimalPtr.deref]
    split at h
    · next v hv => simp only [Except.ok.injEq] at h; rw [h]
    · simp at h

theorem animal_printName_of_deref (a : AnimalPtr) (s : State) (v : animal)
    (h : a.deref s = Except.ok v) :
    animal.printName a s = (Except.ok (), s.write (unlines [v.name])) := by
  simp [animal.printName, AnimalPtr.load, Go.bind, h, Println_single]

theorem animal_makeCoolAnimalSound_apply (a : AnimalPtr) (s : State) :
    animal.makeCoolAnimalSound a s = (Except.ok (), s.write (unlines [genericMessage])) :=
  Println_single _ s

theorem dog_makeCoolAnimalSound_apply (d : DogPtr) (s : State) :
    dog.makeCoolAnimalSound d s = (Except.ok (), s.write (unlines ["Woof!"])) :=
  Println_single _ s

theorem dog_printName_of_deref (p : DogPtr) (s : State) (d : dog)
    (h : p.deref s = Except.ok d) :
    dog.printName p s = (Except.ok (), s.write (unlines [d.animal.name])) := by
  obtain ⟨a, ha, hd⟩ := dogPtr_animal_of_deref p s d h
  simp [dog.printName, Go.bind, ha, animal_printName_of_deref a s d.animal hd]

theorem dog_peeOnFireHydrant_of_deref (p : DogPtr) (s : State) (d : dog)
    (h : p.deref s = Except.ok d) :
    dog.peeOnFireHydrant p s
      = (Except.ok (), s.write (unlines [d.animal.name ++ " marks his territory!"])) := by
  simp [dog.peeOnFireHydrant, DogPtr.load, Go.bind, h, Println_apply, unlines, String.intercalate,
    String.intercalate.go, String.append_assoc]

theorem runPolymorphicAnimalFuncs_animal (a : AnimalPtr) (s : State) (v : animal)
    (h : a.deref s = Except.ok v) :
    runPolymorphicAnimalFuncs (iAnimal.animal a) s
      = (Except.ok (), s.write (unlines [v.name, genericMessage])) := by
  simp [runPolymorphicAnimalFuncs, iAnimal.printName, iAnimal.makeCoolAnimalSound, Go.bind,
    animal_printName_of_deref a s v h, animal_makeCoolAnimalSound_apply, State.write_write,
    ← unlines_append]

theorem runPolymorphicAnimalFuncs_dog (p : DogPtr) (s : State) (d : dog)
    (h : p.deref s = Except.ok d) :
    runPolymorphicAnimalFuncs (iAnimal.dog p) s
      = (Except.ok (), s.write (unlines [d.animal.name, "Woof!"])) := by
  simp [runPolymorphicAnimalFuncs, iAnimal.printName, iAnimal.makeCoolAnimalSound, Go.bind,
    dog_printName_of_deref p s d h, dog_makeCoolAnimalSound_apply, State.write_write,
    ← unlines_append]

theorem State.write_injective (s : State) (t u : String) (h : s.write t = s.write u) :
    t = u := by
  have h1 : (s.stdout ++ t).data = (s.stdout ++ u).data := by
    have := congrArg State.stdout h
    simpa using congrArg String.data this
  rw [String.data_append, String.data_append] at h1
  exact String.ext (List.append_cancel_left h1)

/-- The two implementations of `makeCoolAnimalSound` never leave the same
state. -/
theorem makeCoolAnimalSound_ne (p : DogPtr) (a : AnimalPtr) (s : State) :
    dog.makeCoolAnimalSound p s ≠ animal.makeCoolAnimalSound a s := by
  rw [dog_makeCoolAnimalSound_apply, animal_makeCoolAnimalSound_apply]
  intro h
  have h2 := State.write_injective s _ _ (congrArg Prod.snd h)
  exact absurd h2 (by decide)

theorem heap_lookup_append (h rest : List Cell) (c : Cell) :
    (h ++ c :: rest)[h.length]? = some c := by
  induction h with
  | nil => simp
  | cons x xs ih => simpa using ih

theorem animalPtr_deref_cell_append (out : String) (h rest : List Cell) (v : animal) :
    (AnimalPtr.cell h.length).deref { stdout := out, heap := h ++ Cell.animal v :: rest }
      = Except.ok v := by
  simp only [AnimalPtr.deref, heap_lookup_append]

theorem dogPtr_deref_cell_append (out : String) (h rest : List Cell) (v : dog) :
    (DogPtr.cell h.length).deref { stdout := out, heap := h ++ Cell.dog v :: rest }
      = Except.ok v := by
  simp only [DogPtr.deref, heap_lookup_append]

/-! ## Occurrences of a message in a text -/

theorem Mentions_append_left (t u msg : String) (h : Mentions t msg) :
    Mentions (t ++ u) msg := by
  obtain ⟨x, y, hxy⟩ := h
  exact ⟨x, y ++ u.data, by simp [String.data_append, ← hxy]⟩

theorem properWay_apply (s : State) :
    properWay s
      = (Except.ok (),
         { stdout := s.stdout ++ unlines ["", "***Proper way***", "Bob the unknown",
                                          "I do not know what type of animal I am. :(",
                                          "Cozmo the dog", "Woof!", "Barky"],
           heap := s.heap ++ [Cell.animal { name := "Bob the unknown" },
                              Cell.dog { animal := { name := "Cozmo the dog" },
                                         dogCollarBrand := "Barky" }] }) := by
  have ha : ∀ out : String,
      (AnimalPtr.cell s.heap.length).deref
        { stdout := out, heap := s.heap ++ [Cell.animal { name := "Bob the unknown" }] }
        = Except.ok { name := "Bob the unknown" } :=
    fun out => animalPtr_deref_cell_append out _ [] _
  have hd : ∀ out : String,
      (DogPtr.cell (s.heap ++ [Cell.animal { name := "Bob the unknown" }]).length).deref
        { stdout := out,
          heap := s.heap ++ [Cell.animal { name := "Bob the unknown" }]
            ++ [Cell.dog { animal := { name := "Cozmo the dog" }, dogCollarBrand := "Barky" }] }
        = Except.ok { animal := { name := "Cozmo the dog" }, dogCollarBrand := "Barky" } :=
    fun out => dogPtr_deref_cell_append out _ [] _
  simp only [properWay, Go.bind_apply, Go.bind, newAnimal, newDog, Println_single, State.write]
  rw [runPolymorphicAnimalFuncs_animal _ _ _ (ha _)]
  simp only [State.write]
  rw [runPolymorphicAnimalFuncs_dog _ _ _ (hd _)]
  simp only [State.write, DogPtr.load, hd, Println_single]
  simp [unlines, String.append_assoc, genericMessage]

theorem main_apply (s : State) :
    main s
      = (Except.ok (),
         { stdout := s.stdout
             ++ unlines ["Bob the unknown", "I do not know what type of animal I am. :(",
                         "Bob the unknown", "I do not know what type of animal I am. :(",
                         "Cozmo the dog", "Woof!"]
             ++ unlines ["", "***Proper way***", "Bob the unknown",
                         "I do not know what type of animal I am. :(",
                         "Cozmo the dog", "Woof!", "Barky"],
           heap := s.heap ++ [Cell.animal { name := "Bob the unknown" },
                              Cell.dog { animal := { name := "Cozmo the dog" },
                                         dogCollarBrand := "Barky" },
                              Cell.animal { name := "Bob the unknown" },
                              Cell.dog { animal := { name := "Cozmo the dog" },
                                         dogCollarBrand := "Barky" }] }) := by
  have ha : ∀ out : String,
      (AnimalPtr.cell s.heap.length).deref
        { stdout := out, heap := s.heap ++ [Cell.animal { name := "Bob the unknown" }] }
        = Except.ok { name := "Bob the unknown" } :=
    fun out => animalPtr_deref_cell_append out _ [] _
  have hd : ∀ out : String,
      (DogPtr.cell (s.heap ++ [Cell.animal { name := "Bob the unknown" }]).length).deref
        { stdout := out,
          heap := s.heap ++ [Cell.animal { name := "Bob the unknown" }]
            ++ [Cell.dog { animal := { name := "Cozmo the dog" }, dogCollarBrand := "Barky" }] }
        = Except.ok { animal := { name := "Cozmo the dog" }, dogCollarBrand := "Barky" } :=
    fun out => dogPtr_deref_cell_append out _ [] _
  simp only [main, Go.bind_apply, Go.bind, newAnimal, newDog, iAnimal.printName,
    iAnimal.makeCoolAnimalSound, animal_makeCoolAnimalSound_apply,
    dog_makeCoolAnimalSound_apply]
  rw [animal_printName_of_deref _ _ _ (ha _)]
  simp only [State.write]
  rw [animal_printName_of_deref _ _ _ (ha _)]
  simp only [State.write]
  rw [dog_printName_of_deref _ _ _ (hd _)]
  simp only [State.write, properWay_apply]
  simp [unlines, String.append_assoc, genericMessage]

theorem examples_main_apply (s : State) :
    Examples.main s
      = (Except.ok (),
         { stdout := s.stdout
             ++ unlines ["Bob the unknown", "I do not know what type of animal I am. :(",
                         "Cozmo the dog", "Woof!"]
             ++ unlines ["", "Bob the unknown", "Barky",
                         "Cozmo the dog marks his territory!"],
           heap := s.heap ++ [Cell.animal { name := "Bob the unknown" },
                              Cell.dog { animal := { name := "Cozmo the dog" },
                                         dogCollarBrand := "Barky" }] }) := by
  have ha : ∀ out : String,
      (AnimalPtr.cell s.heap.length).deref
        { stdout := out,
          heap := s.heap ++ [Cell.animal { name := "Bob the unknown" }]
            ++ [Cell.dog { animal := { name := "Cozmo the dog" }, dogCollarBrand := "Barky" }] }
        = Except.ok { name := "Bob the unknown" } := by
    intro out
    rw [List.append_assoc]
    exact animalPtr_deref_cell_append _ _ _ _
  have hd : ∀ out : String,
      (DogPtr.cell (s.heap ++ [Cell.animal { name := "Bob the unknown" }]).length).deref
        { stdout := out,
          heap := s.heap ++ [Cell.animal { name := "Bob the unknown" }]
            ++ [Cell.dog { animal := { name := "Cozmo the dog" }, dogCollarBrand := "Barky" }] }
        = Except.ok { animal := { name := "Cozmo the dog" }, dogCollarBrand := "Barky" } :=
    fun out => dogPtr_deref_cell_append out _ [] _
  simp only [Examples.main, Go.bind_apply, Go.bind, newAnimal, newDog]
  rw [runPolymorphicAnimalFuncs_animal _ _ _ (ha _)]
  simp only [State.write]
  rw [runPolymorphicAnimalFuncs_dog _ _ _ (hd _)]
  simp only [State.write, Println_apply, AnimalPtr.load, DogPtr.load, ha, hd]
  rw [dog_peeOnFireHydrant_of_deref _ _ _ (hd _)]
  simp [State.write, unlines, String.append_assoc, genericMessage, String.intercalate,
    String.intercalate.go]

/-! ## Receivers that are nil -/

/-- Calling `printName` on a nil `*animal` panics: the body reads `a.name`. -/
theorem animal_printName_nil (s : State) :
    animal.printName AnimalPtr.nil s = (Except.error Panic.nilDereference, s) := rfl

/-- Calling `peeOnFireHydrant` or the promoted `printName` on a nil `*dog`
panics. -/
theorem dog_methods_nil (s : State) :
    dog.peeOnFireHydrant DogPtr.nil s = (Except.error Panic.nilDereference, s)
    ∧ dog.printName DogPtr.nil s = (Except.error Panic.nilDereference, s) := ⟨rfl, rfl⟩

/-- Calling a method on the nil interface value panics. -/
theorem runPolymorphicAnimalFuncs_nil (s : State) :
    runPolymorphicAnimalFuncs iAnimal.nil s = (Except.error Panic.nilDereference, s) := rfl

/-! ## Frame lemmas -/

theorem LeavesValuesUnchanged.of_heap {α : Type} (m : Go α)
    (h : ∀ s : State, (m s).2.heap = s.heap) : LeavesValuesUnchanged m := by
  intro s
  refine ⟨h s, fun q => ?_, fun q => ?_⟩
  · cases q <;> simp only [AnimalPtr.deref, h s]
  · cases q <;> simp only [DogPtr.deref, h s]

theorem heap_bind {α β : Type} (m : Go α) (f : α → Go β)
    (hm : ∀ s : State, (m s).2.heap = s.heap)
    (hf : ∀ (a : α) (s : State), (f a s).2.heap = s.heap) (s : State) :
    ((m >>= f) s).2.heap = s.heap := by
  simp only [Go.bind_apply, Go.bind]
  have h := hm s
  split
  · next a s1 heq => rw [heq] at h; rw [hf a s1]; exact h
  · next e s1 heq => rw [heq] at h; exact h

theorem heap_Println (a : List String) (s : State) : (Println a s).2.heap = s.heap := rfl

theorem heap_animal_printName (a : AnimalPtr) (s : State) :
    (animal.printName a s).2.heap = s.heap :=
  heap_bind _ _ (fun _ => rfl) (fun _ _ => rfl) s

theorem heap_dog_printName (d : DogPtr) (s : State) :
    (dog.printName d s).2.heap = s.heap :=
  heap_bind _ _ (fun _ => by cases d <;> rfl) (fun a s1 => heap_animal_printName a s1) s

theorem heap_dog_peeOnFireHydrant (d : DogPtr) (s : State) :
    (dog.peeOnFireHydrant d s).2.heap = s.heap :=
  heap_bind _ _ (fun _ => rfl) (fun _ _ => rfl) s

theorem heap_iAnimal_printName (x : iAnimal) (s : State) :
    (x.printName s).2.heap = s.heap := by
  cases x with
  | nil => rfl
  | animal p => exact heap_animal_printName p s
  | dog p => exact heap_dog_printName p s

theorem heap_iAnimal_makeCoolAnimalSound (x : iAnimal) (s : State) :
    (x.makeCoolAnimalSound s).2.heap = s.heap := by
  cases x <;> rfl

theorem heap_runPolymorphicAnimalFuncs (x : iAnimal) (s : State) :
    (runPolymorphicAnimalFuncs x s).2.heap = s.heap :=
  heap_bind _ _ (heap_iAnimal_printName x) (fun _ s1 => heap_iAnimal_makeCoolAnimalSound x s1) s

/-! ## The claims -/

/-- C2: for an animal with name `N` (any text, the empty one included),
`printName` returns normally having written exactly the line `N`; and
`makeCoolAnimalSound`, on any receiver in any state, returns normally having
written exactly the generic message, whatever the name. -/
theorem animal_methods_output (N : String) (s : State) (a : AnimalPtr)
    (h : a.deref s = Except.ok { name := N }) :
    animal.printName a s = (Except.ok (), s.write (unlines [N]))
    ∧ ∀ (a1 : AnimalPtr) (s1 : State),
        animal.makeCoolAnimalSound a1 s1
          = (Except.ok (),
             s1.write (unlines ["I do not know what type of animal I am. :("])) :=
  ⟨animal_printName_of_deref a s _ h, fun a1 s1 => animal_makeCoolAnimalSound_apply a1 s1⟩

/-- C2 (witness): an animal built with the empty name, by `&animal{""}` in the
initial state. -/
theorem animal_methods_output_witness :
    newAnimal { name := "" } State.initial = (Except.ok (AnimalPtr.cell 0), State.nameless)
    ∧ (AnimalPtr.cell 0).deref State.nameless = Except.ok { name := "" }
    ∧ animal.printName (AnimalPtr.cell 0) State.nameless
        = (Except.ok (), State.nameless.write (unlines [""]))
    ∧ ∀ (a1 : AnimalPtr) (s1 : State),
        animal.makeCoolAnimalSound a1 s1
          = (Except.ok (),
             s1.write (unlines ["I do not know what type of animal I am. :("])) :=
  ⟨rfl, rfl, animal_methods_output "" State.nameless (AnimalPtr.cell 0) rfl⟩

/-- C3: for a dog with name `N` and tag `T`, `printName` returns normally
having written exactly the line `N`, and is the call of `printName` on the
address of its embedded animal, whose name is `N`; `makeCoolAnimalSound`, on
any `*dog` in any state, returns normally having written exactly `Woof!`,
whatever the name and the tag; and its effect is never that of the generic
implementation of `animal`. -/
theorem dog_methods_output (N T : String) (s : State) (p : DogPtr)
    (h : p.deref s = Except.ok { animal := { name := N }, dogCollarBrand := T }) :
    dog.printName p s = (Except.ok (), s.write (unlines [N]))
    ∧ (∃ a : AnimalPtr, p.animal s = (Except.ok a, s) ∧ a.deref s = Except.ok { name := N }
        ∧ dog.printName p s = animal.printName a s)
    ∧ (∀ (p1 : DogPtr) (s1 : State),
        dog.makeCoolAnimalSound p1 s1 = (Except.ok (), s1.write (unlines ["Woof!"])))
    ∧ "Woof!" ≠ "I do not know what type of animal I am. :("
    ∧ ∀ (p1 : DogPtr) (a1 : AnimalPtr) (s1 : State),
        dog.makeCoolAnimalSound p1 s1 ≠ animal.makeCoolAnimalSound a1 s1 := by
  refine ⟨dog_printName_of_deref p s _ h, ?_, fun p1 s1 => dog_makeCoolAnimalSound_apply p1 s1,
    by decide, fun p1 a1 s1 => makeCoolAnimalSound_ne p1 a1 s1⟩
  obtain ⟨a, ha, hd⟩ := dogPtr_animal_of_deref p s _ h
  refine ⟨a, ha, hd, ?_⟩
  rw [dog_printName_of_deref p s _ h, animal_printName_of_deref a s _ hd]

/-- C3 (witness): Cozmo, at address 1 of the heap holding Bob and Cozmo. -/
theorem dog_methods_output_witness :
    (DogPtr.cell 1).deref State.bobAndCozmo
        = Except.ok { animal := { name := "Cozmo the dog" }, dogCollarBrand := "Barky" }
    ∧ dog.printName (DogPtr.cell 1) State.bobAndCozmo
        = (Except.ok (), State.bobAndCozmo.write (unlines ["Cozmo the dog"]))
    ∧ dog.printName (DogPtr.cell 1) State.bobAndCozmo
        = animal.printName (AnimalPtr.embedded 1) State.bobAndCozmo :=
  ⟨rfl,
    (dog_methods_output "Cozmo the dog" "Barky" State.bobAndCozmo (DogPtr.cell 1) rfl).1,
    rfl⟩

/-- C4: the end-to-end scenario.  From any state, building Bob and Cozmo and
passing each to `runPolymorphicAnimalFuncs`, the animal first, returns
normally having written exactly the four lines `Bob the unknown`, the generic
message, `Cozmo the dog`, `Woof!`, in the order of `main` of
`src/examples/go-example/main.go` (both built first) and in the order of
`properWay` (each built just before its call); and these four lines are the
first four that `main` of `src/examples/go-example/main.go` writes. -/
theorem end_to_end_four_lines (s : State) :
    (do let unknownAnimal ← newAnimal { name := "Bob the unknown" }
        let cozmo ← newDog { animal := { name := "Cozmo the dog" }, dogCollarBrand := "Barky" }
        runPolymorphicAnimalFuncs (iAnimal.animal unknownAnimal)
        runPolymorphicAnimalFuncs (iAnimal.dog cozmo) : Go Unit) s
      = (Except.ok (),
         { stdout := s.stdout ++ unlines ["Bob the unknown",
                                          "I do not know what type of animal I am. :(",
                                          "Cozmo the dog", "Woof!"],
           heap := s.heap ++ [Cell.animal { name := "Bob the unknown" },
                              Cell.dog { animal := { name := "Cozmo the dog" },
                                         dogCollarBrand := "Barky" }] })
    ∧ (do let unknownAnimal ← newAnimal { name := "Bob the unknown" }
          runPolymorphicAnimalFuncs (iAnimal.animal unknownAnimal)
          let polymorphicDog ← newDog { animal := { name := "Cozmo the dog" },
                                        dogCollarBrand := "Barky" }
          runPolymorphicAnimalFuncs (iAnimal.dog polymorphicDog) : Go Unit) s
      = (Except.ok (),
         { stdout := s.stdout ++ unlines ["Bob the unknown",
                                          "I do not know what type of animal I am. :(",
                                          "Cozmo the dog", "Woof!"],
           heap := s.heap ++ [Cell.animal { name := "Bob the unknown" },
                              Cell.dog { animal := { name := "Cozmo the dog" },
                                         dogCollarBrand := "Barky" }] })
    ∧ Examples.main s
      = (Except.ok (),
         { stdout := s.stdout
             ++ unlines ["Bob the unknown", "I do not know what type of animal I am. :(",
                         "Cozmo the dog", "Woof!"]
             ++ unlines ["", "Bob the unknown", "Barky",
                         "Cozmo the dog marks his territory!"],
           heap := s.heap ++ [Cell.animal { name := "Bob the unknown" },
                              Cell.dog { animal := { name := "Cozmo the dog" },
                                         dogCollarBrand := "Barky" }] }) := by
  have hd : ∀ out : String,
      (DogPtr.cell (s.heap ++ [Cell.animal { name := "Bob the unknown" }]).length).deref
        { stdout := out,
          heap := s.heap ++ [Cell.animal { name := "Bob the unknown" }]
            ++ [Cell.dog { animal := { name := "Cozmo the dog" }, dogCollarBrand := "Barky" }] }
        = Except.ok { animal := { name := "Cozmo the dog" }, dogCollarBrand := "Barky" } :=
    fun out => dogPtr_deref_cell_append out _ [] _
  refine ⟨?_, ?_, examples_main_apply s⟩
  · have ha : (AnimalPtr.cell s.heap.length).deref
        { stdout := s.stdout,
          heap := s.heap ++ [Cell.animal { name := "Bob the unknown" }]
            ++ [Cell.dog { animal := { name := "Cozmo the dog" }, dogCollarBrand := "Barky" }] }
        = Except.ok { name := "Bob the unknown" } := by
      rw [List.append_assoc]
      exact animalPtr_deref_cell_append _ _ _ _
    simp only [Go.bind_apply, Go.bind, newAnimal, newDog]
    rw [runPolymorphicAnimalFuncs_animal _ _ _ ha]
    simp only [State.write]
    rw [runPolymorphicAnimalFuncs_dog _ _ _ (hd _)]
    simp [State.write, unlines, String.append_assoc, genericMessage]
  · have ha : (AnimalPtr.cell s.heap.length).deref
        { stdout := s.stdout, heap := s.heap ++ [Cell.animal { name := "Bob the unknown" }] }
        = Except.ok { name := "Bob the unknown" } :=
      animalPtr_deref_cell_append _ _ _ _
    simp only [Go.bind_apply, Go.bind, newAnimal, newDog]
    rw [runPolymorphicAnimalFuncs_animal _ _ _ ha]
    simp only [State.write]
    rw [runPolymorphicAnimalFuncs_dog _ _ _ (hd _)]
    simp [State.write, unlines, String.append_assoc, genericMessage]

/-- C5 (counterexample): Cozmo, whose tag is `Barky`.  `peeOnFireHydrant`
writes the line `Cozmo the dog marks his territory!`, in which the tag does
not occur, and writes the same line when the tag is `Spiky`. -/
theorem peeOnFireHydrant_ignores_tag :
    (dog.peeOnFireHydrant (DogPtr.cell 1) State.bobAndCozmo).2.stdout
        = unlines ["Cozmo the dog marks his territory!"]
    ∧ ¬ Mentions (dog.peeOnFireHydrant (DogPtr.cell 1) State.bobAndCozmo).2.stdout "Barky"
    ∧ (dog.peeOnFireHydrant (DogPtr.cell 0) State.spikyCozmo).2.stdout
        = (dog.peeOnFireHydrant (DogPtr.cell 1) State.bobAndCozmo).2.stdout := by
  refine ⟨by decide, by decide, by decide⟩

/-- C5 (amended): `peeOnFireHydrant` references the name only.  For a dog with
name `N` and tag `T` it returns normally having written exactly the line made
of `N`, a space and `marks his territory!`; the name occurs in that line; and
the line is the same for every other tag. -/
theorem peeOnFireHydrant_output (N T : String) (s : State) (p : DogPtr)
    (h : p.deref s = Except.ok { animal := { name := N }, dogCollarBrand := T }) :
    dog.peeOnFireHydrant p s
        = (Except.ok (), s.write (unlines [N ++ " marks his territory!"]))
    ∧ Mentions (unlines [N ++ " marks his territory!"]) N
    ∧ ∀ (T1 : String) (s1 : State) (p1 : DogPtr),
        p1.deref s1 = Except.ok { animal := { name := N }, dogCollarBrand := T1 } →
        dog.peeOnFireHydrant p1 s1
          = (Except.ok (), s1.write (unlines [N ++ " marks his territory!"])) := by
  refine ⟨dog_peeOnFireHydrant_of_deref p s _ h, ?_,
    fun T1 s1 p1 h1 => dog_peeOnFireHydrant_of_deref p1 s1 _ h1⟩
  rw [unlines_singleton, String.append_assoc]
  exact Mentions_append_left _ _ _ ⟨[], [], by simp⟩

/-- C5 (witness): Cozmo, at address 1 of the heap holding Bob and Cozmo. -/
theorem peeOnFireHydrant_output_witness :
    (DogPtr.cell 1).deref State.bobAndCozmo
        = Except.ok { animal := { name := "Cozmo the dog" }, dogCollarBrand := "Barky" }
    ∧ dog.peeOnFireHydrant (DogPtr.cell 1) State.bobAndCozmo
        = (Except.ok (),
           State.bobAndCozmo.write (unlines ["Cozmo the dog" ++ " marks his territory!"])) :=
  ⟨rfl,
    (peeOnFireHydrant_output "Cozmo the dog" "Barky" State.bobAndCozmo (DogPtr.cell 1) rfl).1⟩

/-- C7: every operation on an entity leaves every allocated value unchanged,
its receiver included: after `animal.printName`, `animal.makeCoolAnimalSound`,
`dog.makeCoolAnimalSound`, `dog.peeOnFireHydrant`, the promoted
`dog.printName` and `runPolymorphicAnimalFuncs`, from any state and on any
receiver, the heap is what it was, and every pointer points at the value (name,
and tag for a dog) it pointed at before. -/
theorem operations_leave_values_unchanged (a : AnimalPtr) (d : DogPtr) (x : iAnimal) :
    LeavesValuesUnchanged (animal.printName a)
    ∧ LeavesValuesUnchanged (animal.makeCoolAnimalSound a)
    ∧ LeavesValuesUnchanged (dog.makeCoolAnimalSound d)
    ∧ LeavesValuesUnchanged (dog.peeOnFireHydrant d)
    ∧ LeavesValuesUnchanged (dog.printName d)
    ∧ LeavesValuesUnchanged (runPolymorphicAnimalFuncs x) :=
  ⟨LeavesValuesUnchanged.of_heap _ (heap_animal_printName a),
   LeavesValuesUnchanged.of_heap _ (fun _ => rfl),
   LeavesValuesUnchanged.of_heap _ (fun _ => rfl),
   LeavesValuesUnchanged.of_heap _ (heap_dog_peeOnFireHydrant d),
   LeavesValuesUnchanged.of_heap _ (heap_dog_printName d),
   LeavesValuesUnchanged.of_heap _ (heap_runPolymorphicAnimalFuncs x)⟩

/-- C8: on valid (non-nil) receivers every operation returns normally.  For a
`*animal` pointing at any animal, in any state (whether or not a dog is
allocated in it), `printName`, `makeCoolAnimalSound` and
`runPolymorphicAnimalFuncs` end without a panic; for a `*dog` pointing at any
dog, in any state, whatever the name and the tag, `printName`,
`makeCoolAnimalSound`, `peeOnFireHydrant` and `runPolymorphicAnimalFuncs` end
without a panic. -/
theorem operations_return_normally :
    (∀ (s : State) (a : AnimalPtr) (va : animal), a.deref s = Except.ok va →
        (animal.printName a s).1 = Except.ok ()
        ∧ (animal.makeCoolAnimalSound a s).1 = Except.ok ()
        ∧ (runPolymorphicAnimalFuncs (iAnimal.animal a) s).1 = Except.ok ())
    ∧ (∀ (s : State) (d : DogPtr) (vd : dog), d.deref s = Except.ok vd →
        (dog.printName d s).1 = Except.ok ()
        ∧ (dog.makeCoolAnimalSound d s).1 = Except.ok ()
        ∧ (dog.peeOnFireHydrant d s).1 = Except.ok ()
        ∧ (runPolymorphicAnimalFuncs (iAnimal.dog d) s).1 = Except.ok ()) := by
  refine ⟨fun s a va ha => ⟨?_, rfl, ?_⟩, fun s d vd hd => ⟨?_, rfl, ?_, ?_⟩⟩
  · rw [animal_printName_of_deref a s va ha]
  · rw [runPolymorphicAnimalFuncs_animal a s va ha]
  · rw [dog_printName_of_deref d s vd hd]
  · rw [dog_peeOnFireHydrant_of_deref d s vd hd]
  · rw [runPolymorphicAnimalFuncs_dog d s vd hd]

/-- C8 (witness): Bob alone, in a heap that holds no dog, and Cozmo alone, in a
heap that holds no separate animal. -/
theorem operations_return_normally_witness :
    (AnimalPtr.cell 0).deref State.bobAlone = Except.ok { name := "Bob the unknown" }
    ∧ ((animal.printName (AnimalPtr.cell 0) State.bobAlone).1 = Except.ok ()
        ∧ (animal.makeCoolAnimalSound (AnimalPtr.cell 0) State.bobAlone).1 = Except.ok ()
        ∧ (runPolymorphicAnimalFuncs (iAnimal.animal (AnimalPtr.cell 0)) State.bobAlone).1
            = Except.ok ())
    ∧ (DogPtr.cell 0).deref State.spikyCozmo
        = Except.ok { animal := { name := "Cozmo the dog" }, dogCollarBrand := "Spiky" }
    ∧ (dog.printName (DogPtr.cell 0) State.spikyCozmo).1 = Except.ok ()
    ∧ (dog.makeCoolAnimalSound (DogPtr.cell 0) State.spikyCozmo).1 = Except.ok ()
    ∧ (dog.peeOnFireHydrant (DogPtr.cell 0) State.spikyCozmo).1 = Except.ok ()
    ∧ (runPolymorphicAnimalFuncs (iAnimal.dog (DogPtr.cell 0)) State.spikyCozmo).1
        = Except.ok () :=
  ⟨rfl,
    operations_return_normally.1 State.bobAlone (AnimalPtr.cell 0) _ rfl,
    rfl,
    operations_return_normally.2 State.spikyCozmo (DogPtr.cell 0) _ rfl⟩

/-- C10: what `runPolymorphicAnimalFuncs` writes for a dog does not depend on
its tag: for two dogs with the same name `N` and tags `T1` and `T2`, both
calls return normally and write one and the same text. -/
theorem runPolymorphicAnimalFuncs_tag_independent (N T1 T2 : String) (s1 s2 : State)
    (p1 p2 : DogPtr)
    (h1 : p1.deref s1 = Except.ok { animal := { name := N }, dogCollarBrand := T1 })
    (h2 : p2.deref s2 = Except.ok { animal := { name := N }, dogCollarBrand := T2 }) :
    ∃ text : String,
      runPolymorphicAnimalFuncs (iAnimal.dog p1) s1 = (Except.ok (), s1.write text)
      ∧ runPolymorphicAnimalFuncs (iAnimal.dog p2) s2 = (Except.ok (), s2.write text) :=
  ⟨unlines [N, "Woof!"], runPolymorphicAnimalFuncs_dog p1 s1 _ h1,
    runPolymorphicAnimalFuncs_dog p2 s2 _ h2⟩

/-- C10 (witness): Cozmo with the tag `Barky` and Cozmo with the tag `Spiky`. -/
theorem runPolymorphicAnimalFuncs_tag_independent_witness :
    (DogPtr.cell 1).deref State.bobAndCozmo
        = Except.ok { animal := { name := "Cozmo the dog" }, dogCollarBrand := "Barky" }
    ∧ (DogPtr.cell 0).deref State.spikyCozmo
        = Except.ok { animal := { name := "Cozmo the dog" }, dogCollarBrand := "Spiky" }
    ∧ ∃ text : String,
        runPolymorphicAnimalFuncs (iAnimal.dog (DogPtr.cell 1)) State.bobAndCozmo
          = (Except.ok (), State.bobAndCozmo.write text)
        ∧ runPolymorphicAnimalFuncs (iAnimal.dog (DogPtr.cell 0)) State.spikyCozmo
          = (Except.ok (), State.spikyCozmo.write text) :=
  ⟨rfl, rfl,
    runPolymorphicAnimalFuncs_tag_independent "Cozmo the dog" "Barky" "Spiky"
      State.bobAndCozmo State.spikyCozmo (DogPtr.cell 1) (DogPtr.cell 0) rfl rfl⟩

/-- C9: the program `src/go-example/main.go` writes a fixed sequence of
thirteen lines.  From any state `main` returns normally having written the six
lines `Bob the unknown`, generic message, `Bob the unknown`, generic message,
`Cozmo the dog`, `Woof!` and then the seven lines of `properWay`: an empty
line, `***Proper way***`, `Bob the unknown`, generic message, `Cozmo the dog`,
`Woof!`, `Barky`.  The two direct calls on the `*animal` and the two calls
through an `iAnimal` holding it are the same computation. -/
theorem main_writes_thirteen_lines :
    (main State.initial).1 = Except.ok ()
    ∧ (main State.initial).2.stdout
        = unlines ["Bob the unknown", "I do not know what type of animal I am. :(",
                   "Bob the unknown", "I do not know what type of animal I am. :(",
                   "Cozmo the dog", "Woof!",
                   "", "***Proper way***",
                   "Bob the unknown", "I do not know what type of animal I am. :(",
                   "Cozmo the dog", "Woof!", "Barky"]
    ∧ (["Bob the unknown", "I do not know what type of animal I am. :(",
        "Bob the unknown", "I do not know what type of animal I am. :(",
        "Cozmo the dog", "Woof!",
        "", "***Proper way***",
        "Bob the unknown", "I do not know what type of animal I am. :(",
        "Cozmo the dog", "Woof!", "Barky"] : List String).length = 13
    ∧ (∀ s : State,
        main s
          = (Except.ok (),
             { stdout := s.stdout
                 ++ unlines ["Bob the unknown", "I do not know what type of animal I am. :(",
                             "Bob the unknown", "I do not know what type of animal I am. :(",
                             "Cozmo the dog", "Woof!"]
                 ++ unlines ["", "***Proper way***", "Bob the unknown",
                             "I do not know what type of animal I am. :(",
                             "Cozmo the dog", "Woof!", "Barky"],
               heap := s.heap ++ [Cell.animal { name := "Bob the unknown" },
                                  Cell.dog { animal := { name := "Cozmo the dog" },
                                             dogCollarBrand := "Barky" },
                                  Cell.animal { name := "Bob the unknown" },
                                  Cell.dog { animal := { name := "Cozmo the dog" },
                                             dogCollarBrand := "Barky" }] }))
    ∧ (∀ s : State,
        properWay s
          = (Except.ok (),
             { stdout := s.stdout
                 ++ unlines ["", "***Proper way***", "Bob the unknown",
                             "I do not know what type of animal I am. :(",
                             "Cozmo the dog", "Woof!", "Barky"],
               heap := s.heap ++ [Cell.animal { name := "Bob the unknown" },
                                  Cell.dog { animal := { name := "Cozmo the dog" },
                                             dogCollarBrand := "Barky" }] }))
    ∧ ∀ (unknownAnimal : AnimalPtr) (s : State),
        (do animal.printName unknownAnimal
            animal.makeCoolAnimalSound unknownAnimal : Go Unit) s
          = (do (iAnimal.animal unknownAnimal).printName
                (iAnimal.animal unknownAnimal).makeCoolAnimalSound : Go Unit) s :=
  ⟨by rw [main_apply], by rw [main_apply]; rfl, rfl, main_apply, properWay_apply,
    fun _ _ => rfl⟩

end OopInGo
